import Mathlib

/-!
Shallow embedding of the functional-programming core of the repository:
`src/lib/utils/fp.ts` (Option, Either, pipe, combinators) and
`src/lib/utils/zod.ts` (schema-validation adapter), together with proofs of
the claims about them.

TypeScript tagged unions become Lean inductives; the curried arrow functions
become Lean functions; the `A | null | undefined` input type of
`fromNullable` becomes an explicit `Nullable` sum; the external validator
object of the adapter (which only exposes a
`safeParse(value) -> success/failure` result, per the documented contract) is
a structure holding that function.
-/

set_option autoImplicit false

namespace FP

/-- `Option<A>` from fp.ts: a tagged union of `Some` (tag "Some", one payload
field `value`) and `None` (tag "None", no payload). -/
inductive Option (A : Type) : Type where
  | Some (value : A)
  | None
  deriving DecidableEq

/-- `some` from fp.ts: wraps a value in the `Some` variant. -/
def some {A : Type} (value : A) : Option A := Option.Some value

/-- `none` from fp.ts: the empty value (`Option<never>` in TS, usable at any
Option type; here polymorphic per type, same logical state). -/
def none {A : Type} : Option A := Option.None

/-- `isSome` from fp.ts: `option._tag === "Some"`. -/
def isSome {A : Type} : Option A → Bool
  | .Some _ => true
  | .None => false

/-- `isNone` from fp.ts: `option._tag === "None"`. -/
def isNone {A : Type} : Option A → Bool
  | .Some _ => false
  | .None => true

/-- The TypeScript input type `A | null | undefined`: either an actual value
of `A`, or one of the two JS absent primitives. JS loose equality
`value == null` holds exactly for the `null` and `undefined` cases. -/
inductive Nullable (A : Type) : Type where
  | val (a : A)
  | null
  | undefined
  deriving DecidableEq

/-- `fromNullable` from fp.ts: `value == null ? none : some(value)`.
`== null` is JS loose equality, true exactly for null and undefined. -/
def fromNullable {A : Type} : Nullable A → Option A
  | .null => none
  | .undefined => none
  | .val a => some a

/-- `map` from fp.ts: `isSome(option) ? some(f(option.value)) : none`. -/
def map {A B : Type} (f : A → B) : Option A → Option B
  | .Some a => some (f a)
  | .None => none

/-- `flatMap` from fp.ts: `isSome(option) ? f(option.value) : none`. -/
def flatMap {A B : Type} (f : A → Option B) : Option A → Option B
  | .Some a => f a
  | .None => none

/-- `getOrElse` from fp.ts: `isSome(option) ? option.value : fallback`. -/
def getOrElse {A : Type} (fallback : A) : Option A → A
  | .Some a => a
  | .None => fallback

/-- `getOrElseLazy` from fp.ts: `isSome(option) ? option.value : fallback()`;
the zero-argument JS thunk becomes a `Unit → A` function. -/
def getOrElseLazy {A : Type} (fallback : Unit → A) : Option A → A
  | .Some a => a
  | .None => fallback ()

/-- `match` from fp.ts (renamed: `match` is a Lean keyword):
`isSome(option) ? onSome(option.value) : onNone()`. -/
def matchOption {A B : Type} (onNone : Unit → B) (onSome : A → B) : Option A → B
  | .Some a => onSome a
  | .None => onNone ()

/-- `Either<E, A>` from fp.ts: a tagged union of `Left` (tag "Left", payload
field `left`) and `Right` (tag "Right", payload field `right`). -/
inductive Either (E A : Type) : Type where
  | Left (left : E)
  | Right (right : A)
  deriving DecidableEq

/-- `left` from fp.ts: builds the `Left` (error) variant. -/
def left {E A : Type} (error : E) : Either E A := Either.Left error

/-- `right` from fp.ts: builds the `Right` (success) variant. -/
def right {E A : Type} (value : A) : Either E A := Either.Right value

/-- `isLeft` from fp.ts: `either._tag === "Left"`. -/
def isLeft {E A : Type} : Either E A → Bool
  | .Left _ => true
  | .Right _ => false

/-- `isRight` from fp.ts: `either._tag === "Right"`. -/
def isRight {E A : Type} : Either E A → Bool
  | .Left _ => false
  | .Right _ => true

/-- `mapEither` from fp.ts: `isRight(either) ? right(f(either.right)) : either`
(a Left is returned as-is). -/
def mapEither {E A B : Type} (f : A → B) : Either E A → Either E B
  | .Right a => right (f a)
  | .Left e => Either.Left e

/-- `mapLeft` from fp.ts: `isLeft(either) ? left(f(either.left)) : either`. -/
def mapLeft {E F A : Type} (f : E → F) : Either E A → Either F A
  | .Left e => left (f e)
  | .Right a => Either.Right a

/-- `flatMapEither` from fp.ts: `isRight(either) ? f(either.right) : either`
(on Left the original either is returned, `f` is not called). -/
def flatMapEither {A E B : Type} (f : A → Either E B) : Either E A → Either E B
  | .Right a => f a
  | .Left e => Either.Left e

/-- `getOrElseEither` from fp.ts: `isRight(either) ? either.right : fallback`. -/
def getOrElseEither {E A : Type} (fallback : A) : Either E A → A
  | .Right a => a
  | .Left _ => fallback

/-- `getOrElseLazyEither` from fp.ts:
`isRight(either) ? either.right : fallback(either.left)`. -/
def getOrElseLazyEither {E A : Type} (fallback : E → A) : Either E A → A
  | .Right a => a
  | .Left e => fallback e

/-- `matchEither` from fp.ts:
`isRight(either) ? onRight(either.right) : onLeft(either.left)`. -/
def matchEither {E A B : Type} (onLeft : E → B) (onRight : A → B) : Either E A → B
  | .Left e => onLeft e
  | .Right a => onRight a

/-- `pipe` from fp.ts. The runtime implementation is untyped:
`fns.reduce((acc, fn) => fn(acc), value)` over `Array<(x: unknown) => unknown>`;
the single dynamic type `unknown` becomes the type parameter `U`, and
`Array.reduce` with initial value becomes `List.foldl`. -/
def pipe {U : Type} (value : U) (fns : List (U → U)) : U :=
  fns.foldl (fun acc fn => fn acc) value

/-- `identity` from fp.ts: returns its argument unchanged. -/
def identity {A : Type} (a : A) : A := a

/-- `constant` from fp.ts: `(a) => () => a`; the JS zero-argument function
becomes `Unit → A`. -/
def constant {A : Type} (a : A) : Unit → A := fun _ => a

/-- `compose` from fp.ts: `(f, g) => (a) => f(g(a))`. -/
def compose {A B C : Type} (f : B → C) (g : A → B) : A → C := fun a => f (g a)

/-- `flip` from fp.ts: swaps the arguments of a binary function. A genuinely
binary JS function is modelled with a product domain. -/
def flip {A B C : Type} (f : A × B → C) : B × A → C := fun p => f (p.2, p.1)

/-- `curry` from fp.ts: `(f) => (a) => (b) => f(a, b)`. -/
def curry {A B C : Type} (f : A × B → C) : A → B → C := fun a b => f (a, b)

/-- `uncurry` from fp.ts: `(f) => (a, b) => f(a)(b)`. -/
def uncurry {A B C : Type} (f : A → B → C) : A × B → C := fun p => f p.1 p.2

/-- One validation issue of the external validator's structured error: a path
of segments (joined with "." when formatted) and a message, as used by
`parseEitherMessage` in zod.ts (`e.path.join(".")` and `e.message`). -/
structure ZodIssue : Type where
  path : List String
  message : String
  deriving DecidableEq

/-- The structured error of the external validator: zod.ts only reads its
`issues` array. -/
structure ZodError : Type where
  issues : List ZodIssue
  deriving DecidableEq

/-- The documented result shape of the external validator:
`{success: true, data} | {success: false, error}`. -/
inductive SafeParseResult (T : Type) : Type where
  | success (data : T)
  | failure (error : ZodError)
  deriving DecidableEq

/-- The external schema object, as documented: it exposes exactly
`safeParse(value) -> SafeParseResult`. `V` is the type of input values the
schema is applied to (TS `unknown`). -/
structure Schema (V T : Type) : Type where
  safeParse : V → SafeParseResult T

/-- `parseOption` from zod.ts: `result.success ? some(result.data) : none`. -/
def parseOption {V T : Type} (schema : Schema V T) (value : V) : Option T :=
  match schema.safeParse value with
  | .success d => some d
  | .failure _ => none

/-- `parseEither` from zod.ts:
`result.success ? right(result.data) : left(result.error)`. -/
def parseEither {V T : Type} (schema : Schema V T) (value : V) : Either ZodError T :=
  match schema.safeParse value with
  | .success d => right d
  | .failure err => left err

/-- `parseEitherMessage` from zod.ts: on success `right(result.data)`; on
failure `left` of
`result.error.issues.map((e) => e.path.join(".") + ": " + e.message).join(", ")`. -/
def parseEitherMessage {V T : Type} (schema : Schema V T) (value : V) : Either String T :=
  match schema.safeParse value with
  | .success d => right d
  | .failure err =>
      left (String.intercalate ", "
        (err.issues.map (fun e => String.intercalate "." e.path ++ ": " ++ e.message)))

/-- `createOptionValidator` from zod.ts: partially applies `parseOption`. -/
def createOptionValidator {V T : Type} (schema : Schema V T) : V → Option T :=
  fun value => parseOption schema value

/-- `createEitherValidator` from zod.ts: partially applies `parseEither`. -/
def createEitherValidator {V T : Type} (schema : Schema V T) : V → Either ZodError T :=
  fun value => parseEither schema value

/-- `parseNullableOption` from zod.ts:
`flatMap((v) => parseOption(schema, v))(fromNullable(value))`. -/
def parseNullableOption {V T : Type} (schema : Schema V T) (value : Nullable V) : Option T :=
  flatMap (fun v => parseOption schema v) (fromNullable value)

/-- A small model of the JS primitive values appearing in the spec's concrete
examples: NaN, numbers, strings, booleans. -/
inductive JSValue : Type where
  | nan
  | int (n : Int)
  | str (s : String)
  | bool (b : Bool)
  deriving DecidableEq

/-- The spec example step `x => x * 2`, on JS numbers (only numeric inputs
occur in the example; other inputs are sent to NaN like JS arithmetic). -/
def jsTimesTwo : JSValue → JSValue
  | .int n => .int (n * 2)
  | _ => .nan

/-- The spec example step `x => x + 1`, on JS numbers. -/
def jsAddOne : JSValue → JSValue
  | .int n => .int (n + 1)
  | _ => .nan

/-- The spec example step `x => x.toString()`. -/
def jsToString : JSValue → JSValue
  | .int n => .str (toString n)
  | .str s => .str s
  | .bool b => .str (toString b)
  | .nan => .str "NaN"

/-- A flat JS object as an association list of fields, for the spec's
validation examples. -/
abbrev JSObj : Type := List (String × JSValue)

/-- Field lookup in a flat JS object. -/
def findField (k : String) : JSObj → Option JSValue
  | [] => none
  | (k', v) :: rest => if k' = k then some v else findField k rest

/-- The JS typeof-style name of a value, as it appears in the external
validator's messages. -/
def jsTypeName : JSValue → String
  | .nan => "nan"
  | .int _ => "number"
  | .str _ => "string"
  | .bool _ => "boolean"

/-- Modelled from the spec: the external zod library is not part of this
repository; per §6 a schema is a black box exposing only
`safeParse(value) -> success/failure`. This concrete schema reproduces the
documented behavior of `z.object` with a required number field `id` and a
required string field `name` on flat objects: a wrong field type reports
"Expected number/string, received <type>" at that field's path, a missing
field reports "Required". It is used only as a concrete test input. -/
def userSchema : Schema JSObj (Int × String) :=
  ⟨fun obj =>
    let idRes : Either ZodIssue Int :=
      match findField "id" obj with
      | .Some (.int n) => right n
      | .Some v => left ⟨["id"], "Expected number, received " ++ jsTypeName v⟩
      | .None => left ⟨["id"], "Required"⟩
    let nameRes : Either ZodIssue String :=
      match findField "name" obj with
      | .Some (.str s) => right s
      | .Some v => left ⟨["name"], "Expected string, received " ++ jsTypeName v⟩
      | .None => left ⟨["name"], "Required"⟩
    match idRes, nameRes with
    | .Right n, .Right s => .success (n, s)
    | .Left i, .Right _ => .failure ⟨[i]⟩
    | .Right _, .Left j => .failure ⟨[j]⟩
    | .Left i, .Left j => .failure ⟨[i, j]⟩⟩

/-- The spec's invalid example input: the object with field id set to the
string "x" and no name field. -/
def objIdX : JSObj := [("id", JSValue.str "x")]

/-- The spec's valid example input with name "A". -/
def objA : JSObj := [("id", JSValue.int 1), ("name", JSValue.str "A")]

/-- The spec's valid example input with name "Alice". -/
def objAlice : JSObj := [("id", JSValue.int 1), ("name", JSValue.str "Alice")]

/-- Claim C1: for every error value `e` and every `f`,
`flatMapEither(f)(left(e))` equals `left(e)` with the error payload
unchanged; moreover the result does not depend on `f` in any way (the
pure-embedding form of "`f` is never invoked": two arbitrary distinct `f`
and `g` give the identical result on a Left). -/
theorem flatMapEither_left_short_circuit :
    ∀ (E A B : Type) (e : E) (f : A → Either E B),
      flatMapEither f (left e) = left e ∧
      ∀ g : A → Either E B, flatMapEither f (left e) = flatMapEither g (left e) :=
  fun _ _ _ _ _ => ⟨rfl, fun _ => rfl⟩

/-- Claim C2: `fromNullable` returns `none` exactly on the inputs null and
undefined (both collapse to the same `none` constructor) and `some(value)`
on every actual value; in particular NaN, 0, "", false are Some values
carrying those inputs (isSome is true on every actual value, so none is
never returned for one). -/
theorem fromNullable_spec :
    (∀ A : Type, fromNullable (Nullable.null : Nullable A) = none) ∧
    (∀ A : Type, fromNullable (Nullable.undefined : Nullable A) = none) ∧
    (∀ (A : Type) (a : A), fromNullable (Nullable.val a) = some a) ∧
    (∀ (A : Type) (a : A), isSome (fromNullable (Nullable.val a)) = true) ∧
    fromNullable (Nullable.val JSValue.nan) = some JSValue.nan ∧
    fromNullable (Nullable.val (JSValue.int 0)) = some (JSValue.int 0) ∧
    fromNullable (Nullable.val (JSValue.str "")) = some (JSValue.str "") ∧
    fromNullable (Nullable.val (JSValue.bool false)) = some (JSValue.bool false) :=
  ⟨fun _ => rfl, fun _ => rfl, fun _ _ => rfl, fun _ _ => rfl, rfl, rfl, rfl, rfl⟩

/-- Claim C3: `flatMap` is associative on every Option (Some or None), and
`flatMap(some)` is the identity on every Option. -/
theorem flatMap_assoc_and_some_identity :
    (∀ (A B C : Type) (opt : Option A) (f : A → Option B) (g : B → Option C),
        flatMap g (flatMap f opt) = flatMap (fun a => flatMap g (f a)) opt) ∧
    (∀ (A : Type) (opt : Option A), flatMap some opt = opt) := by
  constructor
  · intro A B C opt f g
    cases opt <;> rfl
  · intro A opt
    cases opt <;> rfl

/-- Claim C4: mapping the identity function is the identity: on every Option
`map(identity)` returns the Option unchanged, and on every Either
`mapEither(identity)` returns the Either unchanged (a Left passes through,
a Right is rebuilt with the same payload). -/
theorem map_identity_spec :
    (∀ (A : Type) (opt : Option A), map identity opt = opt) ∧
    (∀ (E A : Type) (e : Either E A), mapEither identity e = e) := by
  constructor
  · intro A opt
    cases opt <;> rfl
  · intro E A e
    cases e <;> rfl

/-- Claim C5: `pipe` threads the value through the functions strictly left to
right (the empty chain is the identity, and a non-empty chain first applies
its head and pipes the result through the tail), at any arity; concretely
`pipe(5, x => x*2, x => x+1, x => x.toString())` is the string "11" and
`pipe(5)` is 5. -/
theorem pipe_spec :
    (∀ (U : Type) (v : U), pipe v [] = v) ∧
    (∀ (U : Type) (v : U) (f : U → U) (fs : List (U → U)),
        pipe v (f :: fs) = pipe (f v) fs) ∧
    pipe (JSValue.int 5) [jsTimesTwo, jsAddOne, jsToString] = JSValue.str "11" ∧
    pipe (JSValue.int 5) ([] : List (JSValue → JSValue)) = JSValue.int 5 :=
  ⟨fun _ _ => rfl, fun _ _ _ _ => rfl, by decide, rfl⟩

/-- Claim C6: `parseEitherMessage` returns `right(data)` whenever `safeParse`
succeeds, and on failure returns a Left whose payload is the single string
obtained by rendering each issue as "<dotted.path>: <message>" (path
segments joined by ".") and joining the issues with ", "; for a schema
requiring a number `id` and a string `name` applied to the object with id
"x", the resulting Left string starts with the field path "id". -/
theorem parseEitherMessage_spec :
    (∀ (V T : Type) (schema : Schema V T) (value : V) (d : T),
        schema.safeParse value = SafeParseResult.success d →
        parseEitherMessage schema value = right d) ∧
    (∀ (V T : Type) (schema : Schema V T) (value : V) (err : ZodError),
        schema.safeParse value = SafeParseResult.failure err →
        parseEitherMessage schema value =
          left (String.intercalate ", "
            (err.issues.map (fun e => String.intercalate "." e.path ++ ": " ++ e.message)))) := by
  constructor
  · intro V T schema value d h
    unfold parseEitherMessage
    rw [h]
  · intro V T schema value err h
    unfold parseEitherMessage
    rw [h]

/-- Witness for C6: both hypotheses discharged at concrete inputs. The valid
object parses to `right (1, "Alice")`; the object with a string id parses to
a Left whose message is exactly
"id: Expected number, received string, name: Required", which starts with
the field path "id". -/
theorem parseEitherMessage_spec_witness :
    parseEitherMessage userSchema objAlice = right ((1 : Int), "Alice") ∧
    parseEitherMessage userSchema objIdX =
      left "id: Expected number, received string, name: Required" ∧
    "id: Expected number, received string, name: Required" =
      "id" ++ ": Expected number, received string, name: Required" := by
  refine ⟨parseEitherMessage_spec.1 JSObj (Int × String) userSchema objAlice (1, "Alice") rfl,
    ?_, by decide⟩
  have h := parseEitherMessage_spec.2 JSObj (Int × String) userSchema objIdX
    ⟨[⟨["id"], "Expected number, received string"⟩, ⟨["name"], "Required"⟩]⟩ rfl
  rw [h]
  rfl

/-- Claim C7: `parseNullableOption` is definitionally the composition
`flatMap (v => parseOption schema v) ∘ fromNullable`; a null or undefined
input yields `none` with no dependence on the schema (two arbitrary schemas
agree there), a present input behaves exactly as `parseOption`, so absent
input and failed validation produce the same `none`; concretely
`parseNullableOption(userSchema, null)` is `none` and the valid object
parses to `some (1, "A")`. -/
theorem parseNullableOption_spec :
    (∀ (V T : Type) (schema : Schema V T) (value : Nullable V),
        parseNullableOption schema value =
          flatMap (fun v => parseOption schema v) (fromNullable value)) ∧
    (∀ (V T : Type) (schema : Schema V T),
        parseNullableOption schema Nullable.null = none ∧
        parseNullableOption schema Nullable.undefined = none) ∧
    (∀ (V T : Type) (s1 s2 : Schema V T),
        parseNullableOption s1 Nullable.null = parseNullableOption s2 Nullable.null) ∧
    (∀ (V T : Type) (schema : Schema V T) (v : V),
        parseNullableOption schema (Nullable.val v) = parseOption schema v) ∧
    parseNullableOption userSchema Nullable.null = none ∧
    parseNullableOption userSchema (Nullable.val objA) = some ((1 : Int), "A") :=
  ⟨fun _ _ _ _ => rfl, fun _ _ _ => ⟨rfl, rfl⟩, fun _ _ _ _ => rfl,
    fun _ _ _ _ => rfl, rfl, by decide⟩

/-- Claim C8: no documented core operation escapes its return type: every
Option is in exactly one of the two variants, `match` always dispatches to
exactly one of its two branch functions, `matchEither` likewise, and
`parseOption` on any contract-conforming `safeParse` result always returns
`some data` (success) or `none` (failure) — failure is encoded in the
returned value, never thrown (the embedded operations are total Lean
functions into their declared codomains). -/
theorem core_total_spec :
    (∀ (A : Type) (opt : Option A),
        (∃ a, opt = some a ∧ isSome opt = true ∧ isNone opt = false) ∨
        (opt = none ∧ isSome opt = false ∧ isNone opt = true)) ∧
    (∀ (A B : Type) (onNone : Unit → B) (onSome : A → B) (opt : Option A),
        (∃ a, opt = some a ∧ matchOption onNone onSome opt = onSome a) ∨
        (opt = none ∧ matchOption onNone onSome opt = onNone ())) ∧
    (∀ (E A B : Type) (onLeft : E → B) (onRight : A → B) (e : Either E A),
        (∃ x, e = left x ∧ matchEither onLeft onRight e = onLeft x) ∨
        (∃ a, e = right a ∧ matchEither onLeft onRight e = onRight a)) ∧
    (∀ (V T : Type) (schema : Schema V T) (v : V),
        (∃ d, schema.safeParse v = SafeParseResult.success d ∧
          parseOption schema v = some d) ∨
        (∃ err, schema.safeParse v = SafeParseResult.failure err ∧
          parseOption schema v = none)) := by
  refine ⟨fun A opt => ?_, fun A B onN onS opt => ?_, fun E A B onL onR e => ?_,
    fun V T schema v => ?_⟩
  · cases opt with
    | Some a => exact Or.inl ⟨a, rfl, rfl, rfl⟩
    | None => exact Or.inr ⟨rfl, rfl, rfl⟩
  · cases opt with
    | Some a => exact Or.inl ⟨a, rfl, rfl⟩
    | None => exact Or.inr ⟨rfl, rfl⟩
  · cases e with
    | Left x => exact Or.inl ⟨x, rfl, rfl⟩
    | Right a => exact Or.inr ⟨a, rfl, rfl⟩
  · cases h : schema.safeParse v with
    | success d => exact Or.inl ⟨d, rfl, by unfold parseOption; rw [h]⟩
    | failure err => exact Or.inr ⟨err, rfl, by unfold parseOption; rw [h]⟩

/-- Claim C9: `curry` and `uncurry` are exact inverses: `curry(f)(a)(b)`
equals `f(a, b)` for every binary `f`, `uncurry(curry(f))(a, b)` equals
`f(a, b)`, and `curry(uncurry(g))(a)(b)` equals `g(a)(b)` for every curried
`g`. -/
theorem curry_uncurry_inverse :
    (∀ (A B C : Type) (f : A × B → C) (a : A) (b : B), curry f a b = f (a, b)) ∧
    (∀ (A B C : Type) (f : A × B → C) (a : A) (b : B), uncurry (curry f) (a, b) = f (a, b)) ∧
    (∀ (A B C : Type) (g : A → B → C) (a : A) (b : B), curry (uncurry g) a b = g a b) :=
  ⟨fun _ _ _ _ _ _ => rfl, fun _ _ _ _ _ _ => rfl, fun _ _ _ _ _ _ => rfl⟩

/-- Claim C10: `some` never collapses null-like payloads: `some(null)` and
`some(undefined)` are Some values (isSome true, isNone false), while `none`
has isNone true, so they are distinct from `none`; `getOrElse(fallback)`
on `some(undefined)` returns the payload undefined rather than the
fallback; only `fromNullable` maps null and undefined to `none`. -/
theorem some_never_collapses :
    isSome (some (Nullable.null : Nullable JSValue)) = true ∧
    isNone (some (Nullable.null : Nullable JSValue)) = false ∧
    isSome (some (Nullable.undefined : Nullable JSValue)) = true ∧
    isNone (some (Nullable.undefined : Nullable JSValue)) = false ∧
    isNone (none : Option (Nullable JSValue)) = true ∧
    (∀ (A : Type) (fallback : Nullable A),
        getOrElse fallback (some Nullable.undefined) = Nullable.undefined) ∧
    getOrElse (Nullable.val (JSValue.int 0)) (some Nullable.undefined) = Nullable.undefined ∧
    fromNullable (Nullable.null : Nullable JSValue) = none ∧
    fromNullable (Nullable.undefined : Nullable JSValue) = none :=
  ⟨rfl, rfl, rfl, rfl, rfl, fun _ _ => rfl, rfl, rfl, rfl⟩

end FP
